import Mathlib

/-!
Verification of the mount-lifecycle and preset-driven sync orchestration
logic of `Sync-Remote.py` (an rclone TUI wrapper), as a shallow embedding.

Paths are plain strings; `os.path.join` for two components is modelled by
`os_path_join` following the posixpath algorithm, with character-list
based predicates so that everything evaluates inside the kernel.
Subprocess invocations are recorded as events in a trace; the OS mount
table and the process-wide `MOUNTED_BY_SCRIPT` set are explicit state.
External behaviour (user answers, subprocess exit codes, filesystem
queries) is supplied by an `Env` of oracles.
-/

namespace SyncRemote

/-- Whether a path string starts with the separator `'/'`, i.e. Python
`b.startswith("/")`. -/
def starts_with_sep (s : String) : Bool :=
  s.data.head? = some '/'

/-- Whether a path string ends with the separator `'/'`, i.e. Python
`path.endswith("/")`. -/
def ends_with_sep (s : String) : Bool :=
  s.data.getLast? = some '/'

/-- Model of Python `os.path.join(a, b)` (posixpath, two components):
if `b` is absolute it discards `a`; otherwise it concatenates, inserting
a separator unless `a` is empty or already ends with one. -/
def os_path_join (a b : String) : String :=
  if starts_with_sep b then b
  else if a = "" || ends_with_sep a then a ++ b
  else a ++ "/" ++ b

/-- Model of Python `s.lower()`: character-wise lowercasing. -/
def py_lower (s : String) : String :=
  ⟨s.data.map Char.toLower⟩

/-- Model of Python `s.replace(c, "")` for a single-character pattern `c`:
removes every occurrence of `c`. -/
def py_remove_char (s : String) (c : Char) : String :=
  ⟨s.data.filter (fun d => d ≠ c)⟩

/-- Model of Python `s.strip()`: remove leading and trailing whitespace. -/
def py_strip (s : String) : String :=
  ⟨((s.data.dropWhile Char.isWhitespace).reverse.dropWhile Char.isWhitespace).reverse⟩

/-- Split a character list at every occurrence of `c` (Python
`s.split(c)` for a single-character separator: `""` splits to `[""]`). -/
def split_on_char (c : Char) : List Char → List (List Char)
  | [] => [[]]
  | d :: rest =>
    match split_on_char c rest with
    | [] => if d = c then [[], []] else [[d]]
    | x :: xs => if d = c then [] :: x :: xs else (d :: x) :: xs

/-- Source function `get_mount_point`: sanitized mount point under the
per-user mounts root `<home>/rclone-mounts`; `home` stands for
`os.path.expanduser("~")`, an ambient constant of the process. -/
def get_mount_point (home remote_name : String) : String :=
  let base_mount_dir := os_path_join home "rclone-mounts"
  let sanitized :=
    py_remove_char (py_remove_char (py_remove_char (py_lower remote_name) '_') '-') ':'
  os_path_join base_mount_dir sanitized

/-- Spec-side sanitization, following the spec words: the lowercase of the
remote name with every underscore, hyphen and colon character removed. -/
def sanitize_spec (remote_name : String) : String :=
  ⟨(remote_name.data.map Char.toLower).filter
    (fun c => ¬ (c = '_' ∨ c = '-' ∨ c = ':'))⟩

/-- A stored preset record. -/
structure Preset where
  local_path : String
  remote_name : String
  remote_path : String
  ignores : List String
deriving DecidableEq, Repr

/-- The joined target `full_remote_path = os.path.join(mount_point, remote_path)`, as computed
in both `sync_all_presets` and `run_action_for_preset`. -/
def full_remote_path (home remote_name remote_path : String) : String :=
  os_path_join (get_mount_point home remote_name) remote_path

/-- The `base_cmd` construction shared by `sync_all_presets` and
`run_action_for_preset`: start from `["rclone", "-P"]` and for each ignore
pattern extend with a `--filter` / `- <pattern>` pair. -/
def build_base_cmd (ignores : List String) : List String :=
  ignores.foldl (fun cmd pattern => cmd ++ ["--filter", "- " ++ pattern]) ["rclone", "-P"]

/-- Spec-side filter list: one exclusion-filter argument pair per ignore
pattern, in input order, no deduplication. -/
def filters_spec : List String → List String
  | [] => []
  | pattern :: rest => "--filter" :: ("- " ++ pattern) :: filters_spec rest

/-- The three actions offered by `run_action_for_preset`. -/
inductive Action where
  | forward
  | reverse
  | check
deriving DecidableEq, Repr

/-- The command `run_action_for_preset` builds for a chosen action:
`base_cmd` plus the action verb and the (source, destination) pair. -/
def run_action_cmd (home : String) (preset : Preset) (action : Action) : List String :=
  let full := full_remote_path home preset.remote_name preset.remote_path
  let base_cmd := build_base_cmd preset.ignores
  match action with
  | .forward => base_cmd ++ ["sync", preset.local_path, full]
  | .reverse => base_cmd ++ ["sync", full, preset.local_path]
  | .check => base_cmd ++ ["check", preset.local_path, full]

/-- The batch sync command built for one preset inside `sync_all_presets`
phase 2: `base_cmd + ["sync", local_path, full_remote_path]`. -/
def batch_sync_cmd (home : String) (preset : Preset) : List String :=
  build_base_cmd preset.ignores
    ++ ["sync", preset.local_path,
        full_remote_path home preset.remote_name preset.remote_path]

/-- One observable side effect of the orchestration core: a subprocess
invocation, a directory operation, or a logged skip warning. -/
inductive Event where
  | mkdirOs (path : String)
  | mountCmd (remote mount_point : String) (code : Int)
  | rmdirOs (path : String) (ok : Bool)
  | syncCmd (cmd : List String) (code : Int)
  | fusermountCmd (path : String)
  | rmdirCmd (path : String)
  | skipWarn (preset_name : String)
deriving DecidableEq, Repr

/-- The mutable state the core reads and writes: the OS mount table
(as the list of mounted mount points), the process-wide
`MOUNTED_BY_SCRIPT` session set, and the trace of emitted effects. -/
structure SyncState where
  os_mounted : List String
  mounted_by_script : List String
  events : List Event
deriving DecidableEq, Repr

/-- The external world as oracles: the ambient home directory, the result
of `get_rclone_config_path`, the user's y/N answer to the interactive
mount prompt, whether `os.makedirs` succeeds, the exit code of the
`rclone mount` subprocess per remote, whether `os.rmdir` succeeds, whether
`os.path.exists` holds for a local path, and the exit code of a sync
subprocess per command line. -/
structure Env where
  home : String
  config_path : Option String
  confirm_mount : String → Bool
  mkdir_ok : String → Bool
  mount_exit : String → Int
  rmdir_ok : String → Bool
  local_exists : String → Bool
  sync_exit : List String → Int

/-- Mount-table query `is_mounted`: the source parses the output of the `mount` command and
checks for a line mentioning the real path of `mount_point`; modelled as
membership of the mount point in the OS mount table. -/
def is_mounted (os_mounted : List String) (mount_point : String) : Bool :=
  decide (mount_point ∈ os_mounted)

/-- Append emitted events to the trace, leaving mounts untouched. -/
def add_events (st : SyncState) (es : List Event) : SyncState :=
  ⟨st.os_mounted, st.mounted_by_script, st.events ++ es⟩

/-- State update on a successful `rclone mount`: the world now lists the
mount point in the mount table (the daemonized mount reported success),
and `MOUNTED_BY_SCRIPT.add(mount_point)` registers it as session-owned
(set semantics: no duplicate entries). -/
def mount_success_update (st : SyncState) (mount_point : String) : SyncState :=
  ⟨mount_point :: st.os_mounted,
   if mount_point ∈ st.mounted_by_script then st.mounted_by_script
   else st.mounted_by_script ++ [mount_point],
   st.events⟩

/-- Source function `mount_remote`: return success immediately if already
mounted; in interactive mode require user confirmation; fail if the
rclone config path cannot be resolved or the mount-point directory cannot
be created; otherwise run the `rclone mount` subprocess, registering the
mount point as session-owned on exit code 0, and on a non-zero exit code
attempting a best-effort `os.rmdir` of the just-created directory
(errors swallowed) before returning failure. -/
def mount_remote (env : Env) (st : SyncState) (remote_name : String)
    (interactive : Bool) : Bool × SyncState :=
  let mount_point := get_mount_point env.home remote_name
  if is_mounted st.os_mounted mount_point then
    (true, st)
  else if interactive && !env.confirm_mount remote_name then
    (false, st)
  else
    match env.config_path with
    | none => (false, st)
    | some _ =>
      if !env.mkdir_ok mount_point then
        (false, st)
      else
        let st1 := add_events st [Event.mkdirOs mount_point]
        let code := env.mount_exit remote_name
        let st2 := add_events st1 [Event.mountCmd remote_name mount_point code]
        if code = 0 then
          (true, mount_success_update st2 mount_point)
        else
          (false, add_events st2 [Event.rmdirOs mount_point (env.rmdir_ok mount_point)])

/-- The unmount/remove event pairs `cleanup_on_exit` emits while iterating
the session set. -/
def cleanup_events : List String → List Event
  | [] => []
  | mount_point :: rest =>
      Event.fusermountCmd mount_point :: Event.rmdirCmd mount_point :: cleanup_events rest

/-- Source function `cleanup_on_exit`: if the session set is empty do
nothing; otherwise for every session-owned mount point run
`fusermount -u` then `rmdir` (both with errors discarded). -/
def cleanup_on_exit (mounted_by_script : List String) : List Event :=
  if mounted_by_script = [] then [] else cleanup_events mounted_by_script

/-- Phase 1 of `sync_all_presets`: mount each required remote
non-interactively, aborting at the first failure. -/
def phase1 (env : Env) : SyncState → List String → Bool × SyncState
  | st, [] => (true, st)
  | st, remote :: rest =>
    match mount_remote env st remote false with
    | (true, st1) => phase1 env st1 rest
    | (false, st1) => (false, st1)

/-- Phase 2 of `sync_all_presets`: iterate presets in insertion order;
skip with a warning when the local path is gone or the remote is not
mounted; otherwise run the batch sync command; the sync exit code is
recorded but never stops the loop. -/
def phase2 (env : Env) : SyncState → List (String × Preset) → SyncState
  | st, [] => st
  | st, (preset_name, preset) :: rest =>
    let mount_point := get_mount_point env.home preset.remote_name
    if !env.local_exists preset.local_path then
      phase2 env (add_events st [Event.skipWarn preset_name]) rest
    else if !is_mounted st.os_mounted mount_point then
      phase2 env (add_events st [Event.skipWarn preset_name]) rest
    else
      let cmd := batch_sync_cmd env.home preset
      phase2 env (add_events st [Event.syncCmd cmd (env.sync_exit cmd)]) rest

/-- The distinct `remote_name` values across all presets.  The source
iterates a Python set (unspecified order); modelled in first-occurrence
order — the verified properties do not depend on the order. -/
def required_remotes (all_presets : List (String × Preset)) : List String :=
  (all_presets.map (fun np => np.2.remote_name)).eraseDups

/-- Source function `sync_all_presets`: nothing to do without presets;
otherwise phase 1 mounts every required remote and aborts the whole batch
on the first mount failure (phase 2 never runs), and phase 2 syncs all
presets sequentially. -/
def sync_all_presets (env : Env) (st : SyncState)
    (all_presets : List (String × Preset)) : SyncState :=
  if all_presets = [] then st
  else
    match phase1 env st (required_remotes all_presets) with
    | (true, st1) => phase2 env st1 all_presets
    | (false, st1) => st1

/-- The single event phase 2 emits for one preset, as a function of the
static environment and the mount table at loop entry. -/
def preset_step_event (env : Env) (os_mounted : List String)
    (np : String × Preset) : Event :=
  if !env.local_exists np.2.local_path then
    Event.skipWarn np.1
  else if !is_mounted os_mounted (get_mount_point env.home np.2.remote_name) then
    Event.skipWarn np.1
  else
    let cmd := batch_sync_cmd env.home np.2
    Event.syncCmd cmd (env.sync_exit cmd)

/-- Number of sync subprocess invocations recorded in a trace. -/
def sync_cmd_count (events : List Event) : Nat :=
  (events.filter (fun e => match e with | Event.syncCmd _ _ => true | _ => false)).length

/-- Number of mount subprocess invocations recorded in a trace. -/
def mount_cmd_count (events : List Event) : Nat :=
  (events.filter (fun e => match e with | Event.mountCmd _ _ _ => true | _ => false)).length

/-- The exception classes relevant to `load_presets` that its `except`
clause does not catch: any `OSError` other than `FileNotFoundError`
(e.g. `PermissionError` for an unreadable file). -/
inductive PyError where
  | osError
deriving DecidableEq, Repr

/-- The state of the backing preset file as seen by `open` + `json.load`:
absent (`open` raises `FileNotFoundError`), unreadable (`open` raises a
different `OSError`, e.g. `PermissionError`), or readable with some
content. -/
inductive FileState where
  | absent
  | unreadable
  | readable (content : String)
deriving DecidableEq, Repr

/-- Source function `load_presets`:
`try: open(PRESET_FILE); return json.load(f)` with
`except (json.JSONDecodeError, FileNotFoundError): return {}`.
`parse_json` stands for the external JSON parser (`none` models a
`JSONDecodeError`).  An absent file raises `FileNotFoundError`, which is
caught; an unreadable file raises an `OSError` the except clause does not
match, so it propagates to the caller. -/
def load_presets (parse_json : String → Option (List (String × Preset))) :
    FileState → Except PyError (List (String × Preset))
  | .absent => .ok []
  | .unreadable => .error .osError
  | .readable content =>
    match parse_json content with
    | some presets => .ok presets
    | none => .ok []

/-- The wizard's ignore parsing:
`[item.strip() for item in ignore_input.split(",") if item.strip()]` —
split on commas, trim each entry, drop empties, preserve order. -/
def parse_ignores (ignore_input : String) : List String :=
  (((split_on_char ',' ignore_input.data).map (fun l => py_strip ⟨l⟩)).filter
    (fun item => item != ""))

/-- Name lookup in the insertion-ordered preset store mapping. -/
def lookup_preset (store : List (String × Preset)) (name : String) : Option Preset :=
  (store.find? (fun np => np.1 == name)).map (fun np => np.2)

/-- The filesystem oracles the creation wizard consults:
`os.path.expanduser` and `os.path.isdir`. -/
structure WizEnv where
  expanduser : String → String
  isdir : String → Bool

/-- The console answers fed to the creation wizard: the successive
attempts at a preset name, the successive attempts at a local path, the
remote sub-path, the raw ignores line, and the final confirmation
answer. -/
structure WizardInput where
  name_tries : List String
  path_tries : List String
  remote_path_input : String
  ignore_input : String
  confirm_answer : String

/-- Outcome of the wizard: its return value, the resulting persisted
store, and whether `save_presets` was invoked at all. -/
structure WizardResult where
  result : Option (String × Preset)
  store : List (String × Preset)
  did_save : Bool
deriving DecidableEq, Repr

/-- Accepted preset name: non-empty after stripping and not already in
the store. -/
def valid_new_name (store : List (String × Preset)) (s : String) : Bool :=
  (s != "") && (lookup_preset store s).isNone

/-- Source function `create_preset_wizard`: re-prompt until a valid name
(non-empty, unique), re-prompt until the expanded local path is an
existing directory, read the remote sub-path and the ignore list, then
ask `Save this preset? [Y/n]`; any answer whose lowercase form is "n"
cancels, returning `(None, None)` without touching the store; otherwise
the preset is inserted and the whole store rewritten.  The unbounded
re-prompt loops are modelled by exhausting the supplied attempt lists
(no valid attempt: the interaction never passes that prompt, and the
store is certainly never written). -/
def create_preset_wizard (wenv : WizEnv) (store : List (String × Preset))
    (remote_name : String) (inp : WizardInput) : WizardResult :=
  match (inp.name_tries.map py_strip).find? (valid_new_name store) with
  | none => ⟨none, store, false⟩
  | some preset_name =>
    match (inp.path_tries.map (fun s => wenv.expanduser (py_strip s))).find? wenv.isdir with
    | none => ⟨none, store, false⟩
    | some local_path =>
      let remote_path := py_strip inp.remote_path_input
      let ignore_list := parse_ignores (py_strip inp.ignore_input)
      let new_preset : Preset := ⟨local_path, remote_name, remote_path, ignore_list⟩
      if py_lower inp.confirm_answer = "n" then
        ⟨none, store, false⟩
      else
        ⟨some (preset_name, new_preset), store ++ [(preset_name, new_preset)], true⟩

/-! Concrete sample data used by the witness theorems. -/

/-- Empty initial state: nothing mounted, nothing session-owned. -/
def st0 : SyncState := ⟨[], [], []⟩

/-- A state in which the `work` mount point is live (mounted outside the
session). -/
def stM : SyncState := ⟨["/h/rclone-mounts/work"], [], []⟩

/-- A healthy environment: config resolves, directories can be made,
every mount succeeds, every sync exits 1 (non-zero). -/
def env_ok : Env :=
  ⟨"/h", some "/cfg/rclone.conf", fun _ => true, fun _ => true, fun _ => 0,
   fun _ => true, fun _ => true, fun _ => 1⟩

/-- An environment in which the rclone config path cannot be resolved,
so every fresh mount fails. -/
def env_nocfg : Env :=
  ⟨"/h", none, fun _ => true, fun _ => true, fun _ => 1,
   fun _ => true, fun _ => true, fun _ => 0⟩

/-- An environment in which the mount subprocess exits 1 and the
best-effort `os.rmdir` also fails (its error is swallowed). -/
def env_mfail : Env :=
  ⟨"/h", some "/cfg/rclone.conf", fun _ => true, fun _ => true, fun _ => 1,
   fun _ => false, fun _ => true, fun _ => 0⟩

/-- Sample preset. -/
def docs_preset : Preset := ⟨"/h/Documents", "work", "Backups/Work", [".git/", "*.log"]⟩

/-- Second sample preset on the same remote. -/
def pics_preset : Preset := ⟨"/h/Pictures", "work", "Backups/Pics", []⟩

/-- A one-preset store. -/
def presets0 : List (String × Preset) := [("docs", docs_preset)]

/-- A two-preset store on a single remote. -/
def presets2 : List (String × Preset) := [("docs", docs_preset), ("pics", pics_preset)]

/-- Trivial filesystem oracles for the wizard. -/
def wenv0 : WizEnv := ⟨fun s => s, fun _ => true⟩

/-- A wizard interaction that fills every field and then answers `N` at
the final confirmation. -/
def winput0 : WizardInput := ⟨["docs"], ["/h/Documents"], "Backups/Work", ".git/, *.log", "N"⟩

/-! Theorems. -/

theorem foldl_extend_filters (ignores : List String) (init : List String) :
    ignores.foldl (fun cmd pattern => cmd ++ ["--filter", "- " ++ pattern]) init
      = init ++ filters_spec ignores := by
  induction ignores generalizing init with
  | nil => simp [filters_spec]
  | cons p rest ih =>
      simp only [List.foldl_cons, filters_spec, ih]
      simp

theorem build_base_cmd_eq (ignores : List String) :
    build_base_cmd ignores = ["rclone", "-P"] ++ filters_spec ignores :=
  foldl_extend_filters ignores ["rclone", "-P"]

theorem filters_spec_length (ignores : List String) :
    (filters_spec ignores).length = 2 * ignores.length := by
  induction ignores with
  | nil => rfl
  | cons p rest ih => simp [filters_spec, ih]; ring

theorem filter_three_chars (l : List Char) :
    ((l.filter (fun d => d ≠ '_')).filter (fun d => d ≠ '-')).filter (fun d => d ≠ ':')
      = l.filter (fun c => ¬ (c = '_' ∨ c = '-' ∨ c = ':')) := by
  simp only [List.filter_filter]
  apply List.filter_congr
  intro a _
  by_cases h1 : a = '_' <;> by_cases h2 : a = '-' <;> by_cases h3 : a = ':' <;>
    simp [h1, h2, h3]

/-- C7: `get_mount_point` is a pure deterministic function of the remote
name (relative to the ambient per-user home): it returns the lowercase of
`remote_name` with every underscore, hyphen and colon removed, joined
under the fixed mounts root `<home>/rclone-mounts`; being a function,
identical remote names always yield the identical path. -/
theorem get_mount_point_matches_spec (home remote_name : String) :
    get_mount_point home remote_name
      = os_path_join (os_path_join home "rclone-mounts") (sanitize_spec remote_name) := by
  simp only [get_mount_point, py_remove_char, py_lower, sanitize_spec, filter_three_chars]

/-- C8: in every sync/check command (both the interactive
`run_action_for_preset` variants and the batch phase-2 command), the
ignore list contributes exactly one exclusion-filter argument pair per
pattern, in input order, with no reordering and no deduplication, all
placed before the action verb. -/
theorem ignore_filters_in_order (home : String) (preset : Preset) :
    run_action_cmd home preset .forward
        = ["rclone", "-P"] ++ filters_spec preset.ignores
            ++ ["sync", preset.local_path,
                full_remote_path home preset.remote_name preset.remote_path]
    ∧ run_action_cmd home preset .reverse
        = ["rclone", "-P"] ++ filters_spec preset.ignores
            ++ ["sync", full_remote_path home preset.remote_name preset.remote_path,
                preset.local_path]
    ∧ run_action_cmd home preset .check
        = ["rclone", "-P"] ++ filters_spec preset.ignores
            ++ ["check", preset.local_path,
                full_remote_path home preset.remote_name preset.remote_path]
    ∧ batch_sync_cmd home preset
        = ["rclone", "-P"] ++ filters_spec preset.ignores
            ++ ["sync", preset.local_path,
                full_remote_path home preset.remote_name preset.remote_path]
    ∧ (filters_spec preset.ignores).length = 2 * preset.ignores.length := by
  refine ⟨?_, ?_, ?_, ?_, filters_spec_length _⟩ <;>
    simp [run_action_cmd, batch_sync_cmd, build_base_cmd_eq]

/-- C10: `full_remote_path = os.path.join(mount_point, remote_path)`
discards the mount-point whenever `remote_path` is absolute (starts with
the separator), so the target is `remote_path` alone; when `remote_path`
is relative the mount-point is preserved as a path prefix of the target. -/
theorem absolute_remote_path_escapes_mount (home remote_name : String) :
    (∀ remote_path, starts_with_sep remote_path = true →
        full_remote_path home remote_name remote_path = remote_path)
    ∧ (∀ remote_path, starts_with_sep remote_path = false →
        ∃ rest, full_remote_path home remote_name remote_path
          = get_mount_point home remote_name ++ rest) := by
  constructor
  · intro rp h
    simp [full_remote_path, os_path_join, h]
  · intro rp h
    unfold full_remote_path os_path_join
    rw [if_neg (by simp [h])]
    split
    · exact ⟨rp, rfl⟩
    · exact ⟨"/" ++ rp, String.append_assoc _ _ _⟩

theorem absolute_remote_path_escapes_mount_witness :
    full_remote_path "/home/u" "My-Drive" "/abs/target" = "/abs/target"
    ∧ ∃ rest, full_remote_path "/home/u" "My-Drive" "Backups/Work"
        = get_mount_point "/home/u" "My-Drive" ++ rest :=
  ⟨(absolute_remote_path_escapes_mount "/home/u" "My-Drive").1 "/abs/target" (by decide),
   (absolute_remote_path_escapes_mount "/home/u" "My-Drive").2 "Backups/Work" (by decide)⟩

theorem add_events_add_events (st : SyncState) (a b : List Event) :
    add_events (add_events st a) b = add_events st (a ++ b) := by
  simp [add_events]

theorem sync_cmd_count_append (a b : List Event) :
    sync_cmd_count (a ++ b) = sync_cmd_count a + sync_cmd_count b := by
  simp [sync_cmd_count, List.filter_append]

theorem mount_cmd_count_append (a b : List Event) :
    mount_cmd_count (a ++ b) = mount_cmd_count a + mount_cmd_count b := by
  simp [mount_cmd_count, List.filter_append]

theorem mount_remote_already (env : Env) (st : SyncState) (remote_name : String)
    (interactive : Bool)
    (h : is_mounted st.os_mounted (get_mount_point env.home remote_name) = true) :
    mount_remote env st remote_name interactive = (true, st) := by
  simp [mount_remote, h]

/-- Complete case analysis of `mount_remote`: already mounted (no-op
success), failure before the mount subprocess (no events), successful
mount (one mount invocation, session registration), or failed mount
(one mount invocation, best-effort rmdir). -/
theorem mount_remote_cases (env : Env) (st : SyncState) (remote_name : String)
    (interactive : Bool) :
    (is_mounted st.os_mounted (get_mount_point env.home remote_name) = true
       ∧ mount_remote env st remote_name interactive = (true, st))
    ∨ (is_mounted st.os_mounted (get_mount_point env.home remote_name) = false
       ∧ mount_remote env st remote_name interactive = (false, st))
    ∨ (is_mounted st.os_mounted (get_mount_point env.home remote_name) = false
       ∧ env.mount_exit remote_name = 0
       ∧ mount_remote env st remote_name interactive
           = (true, mount_success_update
               (add_events st
                 [Event.mkdirOs (get_mount_point env.home remote_name),
                  Event.mountCmd remote_name (get_mount_point env.home remote_name)
                    (env.mount_exit remote_name)])
               (get_mount_point env.home remote_name)))
    ∨ (is_mounted st.os_mounted (get_mount_point env.home remote_name) = false
       ∧ env.mount_exit remote_name ≠ 0
       ∧ mount_remote env st remote_name interactive
           = (false, add_events st
               [Event.mkdirOs (get_mount_point env.home remote_name),
                Event.mountCmd remote_name (get_mount_point env.home remote_name)
                  (env.mount_exit remote_name),
                Event.rmdirOs (get_mount_point env.home remote_name)
                  (env.rmdir_ok (get_mount_point env.home remote_name))])) := by
  cases h1 : is_mounted st.os_mounted (get_mount_point env.home remote_name)
  case true =>
    exact Or.inl ⟨rfl, mount_remote_already env st remote_name interactive h1⟩
  case false =>
  cases h2 : interactive && !env.confirm_mount remote_name
  case true =>
    refine Or.inr (Or.inl ⟨rfl, ?_⟩)
    simp [mount_remote, h1, h2]
  case false =>
  cases hc : env.config_path with
  | none =>
      refine Or.inr (Or.inl ⟨rfl, ?_⟩)
      simp [mount_remote, h1, h2, hc]
  | some cfg =>
      cases h3 : env.mkdir_ok (get_mount_point env.home remote_name)
      case false =>
        refine Or.inr (Or.inl ⟨rfl, ?_⟩)
        simp [mount_remote, h1, h2, hc, h3]
      case true =>
        by_cases h4 : env.mount_exit remote_name = 0
        · refine Or.inr (Or.inr (Or.inl ⟨rfl, h4, ?_⟩))
          simp [mount_remote, h1, h2, hc, h3, h4, add_events_add_events]
        · refine Or.inr (Or.inr (Or.inr ⟨rfl, h4, ?_⟩))
          simp [mount_remote, h1, h2, hc, h3, h4, add_events_add_events]

theorem mount_remote_no_sync (env : Env) (st : SyncState) (remote_name : String)
    (interactive : Bool) :
    sync_cmd_count ((mount_remote env st remote_name interactive).2).events
      = sync_cmd_count st.events := by
  rcases mount_remote_cases env st remote_name interactive with
    ⟨_, he⟩ | ⟨_, he⟩ | ⟨_, _, he⟩ | ⟨_, _, he⟩ <;>
    rw [he] <;>
    simp [mount_success_update, add_events, sync_cmd_count_append, sync_cmd_count]

theorem mount_remote_mount_count (env : Env) (st : SyncState) (remote_name : String)
    (interactive : Bool) :
    mount_cmd_count ((mount_remote env st remote_name interactive).2).events
      ≤ mount_cmd_count st.events + 1 := by
  rcases mount_remote_cases env st remote_name interactive with
    ⟨_, he⟩ | ⟨_, he⟩ | ⟨_, _, he⟩ | ⟨_, _, he⟩ <;>
    rw [he] <;>
    simp [mount_success_update, add_events, mount_cmd_count_append, mount_cmd_count]

theorem mount_remote_success_mounted (env : Env) (st : SyncState) (remote_name : String)
    (interactive : Bool)
    (h : (mount_remote env st remote_name interactive).1 = true) :
    is_mounted ((mount_remote env st remote_name interactive).2).os_mounted
      (get_mount_point env.home remote_name) = true := by
  rcases mount_remote_cases env st remote_name interactive with
    ⟨h1, he⟩ | ⟨h1, he⟩ | ⟨h1, h0, he⟩ | ⟨h1, h0, he⟩
  · rw [he]; exact h1
  · rw [he] at h; simp at h
  · rw [he]; simp [mount_success_update, add_events, is_mounted]
  · rw [he] at h; simp at h

/-- C3: `mount_remote` is idempotent.  If the mount point is already
mounted the call returns success immediately with no side effects (same
state: no subprocess, no directory creation, no session-set change); and
after any successful call, a second call without an intervening unmount
succeeds with no state change, so the two calls together perform at most
one mount subprocess invocation. -/
theorem mount_remote_idempotent (env : Env) (st : SyncState) (remote_name : String)
    (interactive : Bool)
    (h : (mount_remote env st remote_name interactive).1 = true) :
    (is_mounted st.os_mounted (get_mount_point env.home remote_name) = true →
        mount_remote env st remote_name interactive = (true, st))
    ∧ mount_remote env ((mount_remote env st remote_name interactive).2) remote_name
        interactive = (true, (mount_remote env st remote_name interactive).2)
    ∧ mount_cmd_count ((mount_remote env
          ((mount_remote env st remote_name interactive).2) remote_name
          interactive).2).events
        ≤ mount_cmd_count st.events + 1 := by
  have hm := mount_remote_success_mounted env st remote_name interactive h
  have hsecond := mount_remote_already env
      ((mount_remote env st remote_name interactive).2) remote_name interactive hm
  refine ⟨fun hm0 => mount_remote_already env st remote_name interactive hm0, hsecond, ?_⟩
  rw [hsecond]
  exact mount_remote_mount_count env st remote_name interactive

theorem mount_remote_idempotent_witness :
    (mount_remote env_ok st0 "work" false).1 = true
    ∧ mount_remote env_ok ((mount_remote env_ok st0 "work" false).2) "work" false
        = (true, (mount_remote env_ok st0 "work" false).2) :=
  ⟨by decide, (mount_remote_idempotent env_ok st0 "work" false (by decide)).2.1⟩

theorem fusermount_mem_cleanup_events (l : List String) (p : String) :
    Event.fusermountCmd p ∈ cleanup_events l ↔ p ∈ l := by
  induction l with
  | nil => simp [cleanup_events]
  | cons mp rest ih => simp [cleanup_events, ih]

theorem rmdir_mem_cleanup_events (l : List String) (p : String) :
    Event.rmdirCmd p ∈ cleanup_events l ↔ p ∈ l := by
  induction l with
  | nil => simp [cleanup_events]
  | cons mp rest ih => simp [cleanup_events, ih]

/-- C4: the session-owned set only ever grows by the mount point of a
successful `mount_remote` call that found it not yet live, never by a
pre-existing live mount; and `cleanup_on_exit` emits an unmount/remove
for a mount point exactly when that mount point is a member of the
session-owned set. -/
theorem session_owned_scope (env : Env) (st : SyncState) (remote_name : String)
    (interactive : Bool) :
    (∀ p, p ∈ ((mount_remote env st remote_name interactive).2).mounted_by_script →
        p ∈ st.mounted_by_script
        ∨ (p = get_mount_point env.home remote_name
            ∧ is_mounted st.os_mounted p = false
            ∧ (mount_remote env st remote_name interactive).1 = true))
    ∧ (∀ owned p,
        (Event.fusermountCmd p ∈ cleanup_on_exit owned
          ∨ Event.rmdirCmd p ∈ cleanup_on_exit owned) ↔ p ∈ owned) := by
  constructor
  · intro p hp
    rcases mount_remote_cases env st remote_name interactive with
      ⟨h1, he⟩ | ⟨h1, he⟩ | ⟨h1, h0, he⟩ | ⟨h1, h0, he⟩
    · rw [he] at hp; exact Or.inl hp
    · rw [he] at hp; exact Or.inl hp
    · rw [he] at hp
      simp only [mount_success_update, add_events] at hp
      by_cases hmem : get_mount_point env.home remote_name ∈ st.mounted_by_script
      · rw [if_pos hmem] at hp; exact Or.inl hp
      · rw [if_neg hmem] at hp
        rcases List.mem_append.mp hp with hmem2 | hmem2
        · exact Or.inl hmem2
        · have hpe : p = get_mount_point env.home remote_name := by simpa using hmem2
          subst hpe
          exact Or.inr ⟨rfl, h1, by rw [he]⟩
    · rw [he] at hp; exact Or.inl hp
  · intro owned p
    unfold cleanup_on_exit
    by_cases ho : owned = []
    · subst ho; simp [cleanup_events]
    · rw [if_neg ho, fusermount_mem_cleanup_events, rmdir_mem_cleanup_events, or_self]

theorem session_owned_scope_witness :
    "/h/rclone-mounts/work" ∈ ((mount_remote env_ok st0 "work" false).2).mounted_by_script
    ∧ ("/h/rclone-mounts/work" ∈ st0.mounted_by_script
       ∨ ("/h/rclone-mounts/work" = get_mount_point env_ok.home "work"
           ∧ is_mounted st0.os_mounted "/h/rclone-mounts/work" = false
           ∧ (mount_remote env_ok st0 "work" false).1 = true)) :=
  ⟨by decide, (session_owned_scope env_ok st0 "work" false).1 "/h/rclone-mounts/work" (by decide)⟩

/-- C5: when the mount subprocess exits non-zero, `mount_remote` returns
false, leaves the session-owned set unchanged, and attempts a best-effort
removal of the just-created mount-point directory — the removal outcome
`env.rmdir_ok` is arbitrary, so a failing removal (non-empty directory,
permission denied) is swallowed. -/
theorem mount_failure_cleanup (env : Env) (st : SyncState) (remote_name cfg : String)
    (h1 : is_mounted st.os_mounted (get_mount_point env.home remote_name) = false)
    (h2 : env.config_path = some cfg)
    (h3 : env.mkdir_ok (get_mount_point env.home remote_name) = true)
    (h4 : env.mount_exit remote_name ≠ 0) :
    (mount_remote env st remote_name false).1 = false
    ∧ ((mount_remote env st remote_name false).2).mounted_by_script = st.mounted_by_script
    ∧ Event.rmdirOs (get_mount_point env.home remote_name)
        (env.rmdir_ok (get_mount_point env.home remote_name))
        ∈ ((mount_remote env st remote_name false).2).events := by
  have he : mount_remote env st remote_name false
      = (false, add_events st
          [Event.mkdirOs (get_mount_point env.home remote_name),
           Event.mountCmd remote_name (get_mount_point env.home remote_name)
             (env.mount_exit remote_name),
           Event.rmdirOs (get_mount_point env.home remote_name)
             (env.rmdir_ok (get_mount_point env.home remote_name))]) := by
    simp [mount_remote, h1, h2, h3, h4, add_events_add_events]
  rw [he]
  refine ⟨rfl, rfl, ?_⟩
  simp [add_events]

theorem mount_failure_cleanup_witness :
    (mount_remote env_mfail st0 "work" false).1 = false
    ∧ ((mount_remote env_mfail st0 "work" false).2).mounted_by_script
        = st0.mounted_by_script
    ∧ Event.rmdirOs (get_mount_point env_mfail.home "work")
        (env_mfail.rmdir_ok (get_mount_point env_mfail.home "work"))
        ∈ ((mount_remote env_mfail st0 "work" false).2).events :=
  mount_failure_cleanup env_mfail st0 "work" "/cfg/rclone.conf"
    (by decide) rfl (by decide) (by decide)

theorem phase1_no_sync (env : Env) (remotes : List String) :
    ∀ st : SyncState,
      sync_cmd_count ((phase1 env st remotes).2).events = sync_cmd_count st.events := by
  induction remotes with
  | nil => intro st; rfl
  | cons r rest ih =>
      intro st
      have hm := mount_remote_no_sync env st r false
      unfold phase1
      cases hmr : mount_remote env st r false with
      | mk ok st1 =>
          rw [hmr] at hm
          cases ok
          · simpa using hm
          · simpa using (ih st1).trans hm

/-- C1: in the batch "sync all" workflow, if phase 1 fails to mount some
required remote (the mount loop reports failure), the whole batch is
aborted: the number of sync subprocess invocations in the final trace is
the same as before the batch — zero syncs are attempted for any preset. -/
theorem sync_all_aborts_on_mount_failure (env : Env) (st : SyncState)
    (all_presets : List (String × Preset))
    (h : (phase1 env st (required_remotes all_presets)).1 = false) :
    sync_cmd_count (sync_all_presets env st all_presets).events
      = sync_cmd_count st.events := by
  unfold sync_all_presets
  by_cases hp : all_presets = []
  · simp [hp]
  · rw [if_neg hp]
    have hcount := phase1_no_sync env (required_remotes all_presets) st
    cases hph : phase1 env st (required_remotes all_presets) with
    | mk ok st1 =>
        rw [hph] at h hcount
        cases ok
        · simpa using hcount
        · simp at h

theorem sync_all_aborts_witness :
    (phase1 env_nocfg st0 (required_remotes presets0)).1 = false
    ∧ sync_cmd_count (sync_all_presets env_nocfg st0 presets0).events
        = sync_cmd_count st0.events :=
  ⟨by decide, sync_all_aborts_on_mount_failure env_nocfg st0 presets0 (by decide)⟩

theorem phase2_cons (env : Env) (st : SyncState) (n : String) (p : Preset)
    (rest : List (String × Preset)) :
    phase2 env st ((n, p) :: rest)
      = if !env.local_exists p.local_path then
          phase2 env (add_events st [Event.skipWarn n]) rest
        else if !is_mounted st.os_mounted (get_mount_point env.home p.remote_name) then
          phase2 env (add_events st [Event.skipWarn n]) rest
        else
          phase2 env (add_events st
            [Event.syncCmd (batch_sync_cmd env.home p)
              (env.sync_exit (batch_sync_cmd env.home p))]) rest := rfl

theorem phase2_spec (env : Env) (presets : List (String × Preset)) :
    ∀ st : SyncState,
      phase2 env st presets
        = ⟨st.os_mounted, st.mounted_by_script,
           st.events ++ presets.map (preset_step_event env st.os_mounted)⟩ := by
  induction presets with
  | nil => intro st; cases st; simp [phase2]
  | cons np rest ih =>
      intro st
      obtain ⟨n, p⟩ := np
      rw [phase2_cons]
      cases hl : env.local_exists p.local_path
      · rw [if_pos (by simp [hl]), ih]
        simp [add_events, preset_step_event, hl]
      · cases hm : is_mounted st.os_mounted (get_mount_point env.home p.remote_name)
        · rw [if_neg (by simp [hl]), if_pos (by simp [hm]), ih]
          simp [add_events, preset_step_event, hl, hm]
        · rw [if_neg (by simp [hl]), if_neg (by simp [hm]), ih]
          simp [add_events, preset_step_event, hl, hm]

/-- C2: batch phase 2 iterates presets sequentially in store insertion
order, emitting exactly one event per preset: a logged skip warning
exactly when the preset's local path no longer exists or its remote's
mount point is not currently mounted, and otherwise the sync invocation;
the sync exit code (recorded in the event, arbitrary in `env`) never
prevents the remaining presets from being attempted — every preset
contributes its event regardless. -/
theorem batch_phase2_skip_and_continue (env : Env) (st : SyncState)
    (presets : List (String × Preset)) :
    (phase2 env st presets).events
        = st.events ++ presets.map (preset_step_event env st.os_mounted)
    ∧ (phase2 env st presets).events.length = st.events.length + presets.length
    ∧ ∀ np : String × Preset,
        preset_step_event env st.os_mounted np = Event.skipWarn np.1
          ↔ (env.local_exists np.2.local_path = false
             ∨ is_mounted st.os_mounted (get_mount_point env.home np.2.remote_name)
                 = false) := by
  refine ⟨?_, ?_, ?_⟩
  · rw [phase2_spec env presets st]
  · rw [phase2_spec env presets st]; simp
  · intro np
    unfold preset_step_event
    cases hl : env.local_exists np.2.local_path <;>
      cases hm : is_mounted st.os_mounted (get_mount_point env.home np.2.remote_name) <;>
      simp [hl, hm]

theorem batch_phase2_witness :
    (phase2 env_ok stM presets2).events
        = presets2.map (preset_step_event env_ok stM.os_mounted)
    ∧ (phase2 env_ok stM presets2).events.length = 2 :=
  ⟨by simpa using (batch_phase2_skip_and_continue env_ok stM presets2).1,
   by simpa using (batch_phase2_skip_and_continue env_ok stM presets2).2.1⟩

/-- C6 counterexample: the code's `except` clause only catches
`json.JSONDecodeError` and `FileNotFoundError`; for an unreadable backing
file (`open` raising another `OSError`, e.g. `PermissionError`) the
exception propagates instead of an empty mapping being returned. -/
theorem load_presets_unreadable_raises :
    load_presets (fun _ => none) FileState.unreadable = Except.error PyError.osError
    ∧ load_presets (fun _ => none) FileState.unreadable
        ≠ Except.ok ([] : List (String × Preset)) :=
  ⟨rfl, fun h => Except.noConfusion h⟩

/-- C6 (amended): `load_presets` returns the empty mapping without
raising when the backing file is absent or its content fails to parse;
for an unreadable file the `OSError` propagates to the caller. -/
theorem load_presets_error_policy
    (parse_json : String → Option (List (String × Preset))) (content : String)
    (h : parse_json content = none) :
    load_presets parse_json FileState.absent = Except.ok []
    ∧ load_presets parse_json (FileState.readable content) = Except.ok []
    ∧ load_presets parse_json FileState.unreadable = Except.error PyError.osError := by
  refine ⟨rfl, ?_, rfl⟩
  simp [load_presets, h]

theorem load_presets_error_policy_witness :
    load_presets (fun _ => none) FileState.absent = Except.ok []
    ∧ load_presets (fun _ => none) (FileState.readable "not valid json") = Except.ok []
    ∧ load_presets (fun _ => none) FileState.unreadable = Except.error PyError.osError :=
  load_presets_error_policy (fun _ => none) "not valid json" rfl

/-- C9: if the user declines the final confirmation (an answer whose
lowercase form is "n"), the wizard returns `(None, None)` and the store
is untouched; moreover whenever the wizard does not save — any field
still unvalidated or confirmation declined — the persisted store equals
the original store. -/
theorem wizard_cancel_no_persist (wenv : WizEnv) (store : List (String × Preset))
    (remote_name : String) (inp : WizardInput)
    (h : py_lower inp.confirm_answer = "n") :
    create_preset_wizard wenv store remote_name inp
        = ⟨none, store, false⟩
    ∧ ∀ inp2 : WizardInput,
        (create_preset_wizard wenv store remote_name inp2).did_save = false →
        (create_preset_wizard wenv store remote_name inp2).store = store := by
  constructor
  · rcases hn : (inp.name_tries.map py_strip).find? (valid_new_name store)
      with _ | preset_name
    · simp only [create_preset_wizard]
      rw [hn]
    · rcases hp2 : (inp.path_tries.map (fun s => wenv.expanduser (py_strip s))).find?
          wenv.isdir with _ | local_path
      · simp only [create_preset_wizard]
        rw [hn, hp2]
      · simp only [create_preset_wizard]
        rw [hn, hp2]
        simp [h]
  · intro inp2 h2
    rcases hn : (inp2.name_tries.map py_strip).find? (valid_new_name store)
      with _ | preset_name
    · simp only [create_preset_wizard]
      rw [hn]
    · rcases hp2 : (inp2.path_tries.map (fun s => wenv.expanduser (py_strip s))).find?
          wenv.isdir with _ | local_path
      · simp only [create_preset_wizard]
        rw [hn, hp2]
      · by_cases hc : py_lower inp2.confirm_answer = "n"
        · simp only [create_preset_wizard]
          rw [hn, hp2]
          simp [hc]
        · exfalso
          simp only [create_preset_wizard] at h2
          rw [hn, hp2] at h2
          simp [hc] at h2

theorem wizard_cancel_witness :
    py_lower "N" = "n"
    ∧ create_preset_wizard wenv0 [] "work" winput0
        = ⟨none, [], false⟩ :=
  ⟨by decide, (wizard_cancel_no_persist wenv0 [] "work" winput0 (by decide)).1⟩

end SyncRemote
